import Mathlib

/-
  Shallow embedding of src/letsencrypt/client/network2.py (ACME networking,
  class Network).  Pure protocol logic is translated directly from the source;
  HTTP exchanges are modelled as oracle-supplied responses, since the source
  hands every raw response unconditionally to its own checking code.  Times are
  modelled as natural numbers counting seconds.
-/

namespace ACME

/-- Content type constant from the source, Network.DER_CONTENT_TYPE. -/
def DER_CONTENT_TYPE : String := "application/plix-cert"

/-- Content type constant from the source, Network.JSON_CONTENT_TYPE. -/
def JSON_CONTENT_TYPE : String := "application/json"

/-- Content type constant from the source, Network.JSON_ERROR_CONTENT_TYPE. -/
def JSON_ERROR_CONTENT_TYPE : String := "application/problem+json"

/-- Modelled from the spec: messages2.STATUS_VALID, the valid terminal status
of an authorization (section 3 of the spec; messages2 is outside src/). -/
def STATUS_VALID : String := "valid"

/-- Modelled from the spec: the account registration body (public key and
contact info, section 3).  Wire encoding is out of scope; we keep the fields
the source reads: body.key and body.contact. -/
structure Registration where
  key : String
  contact : List String
deriving DecidableEq

/-- Modelled from the spec: the authorization record body (identifier being
proven, status, key), the fields the source reads: body.identifier, body.key,
body.status. -/
structure AuthzBody where
  identifier : String
  key : String
  status : String
deriving DecidableEq

/-- Modelled from the spec: a parsed JSON body.  A response body either
deserializes as one of the resource body types, as a protocol error record,
or as some other JSON value; parsing failure is Option.none at the Response
level. -/
inductive Json where
  | errorObj (detail : String)
  | reg (r : Registration)
  | authz (b : AuthzBody)
  | chall (c : String)
  | other
deriving DecidableEq

/-- Modelled from the spec: a Retry-After header value, either an integer
seconds count or an HTTP date (section 6).  The source first tries int() and
falls back to werkzeug date parsing. -/
inductive RetryAfterHeader where
  | seconds (n : Nat)
  | httpDate (t : Nat)
deriving DecidableEq

/-- Modelled from the spec: the raw HTTP response surface the source reads
from a requests.Response: status code, Content-Type header, the JSON-parsed
body (none when response.json() raises ValueError), the Location header, the
link relations next / up / terms-of-service, the Retry-After header and the
raw body text. -/
structure Response where
  statusCode : Nat
  contentType : String
  json : Option Json
  location : Option String
  linkNext : Option String
  linkUp : Option String
  linkTos : Option String
  retryAfter : Option RetryAfterHeader
  text : String
deriving DecidableEq

/-- Models requests.Response.ok: true when the status code is below 400. -/
def Response.ok (r : Response) : Bool := decide (r.statusCode < 400)

/-- Models messages2.RegistrationResource: body, location uri (None when the
server omits the Location header and no fallback was given), the
next-authorization uri and the optional terms-of-service uri. -/
structure RegistrationResource where
  body : Registration
  uri : Option String
  new_authz_uri : String
  terms_of_service : Option String
deriving DecidableEq

/-- Models messages2.AuthorizationResource: body, location uri and the
next-certificate-request uri. -/
structure AuthorizationResource where
  body : AuthzBody
  uri : Option String
  new_cert_uri : String
deriving DecidableEq

/-- Models messages2.ChallengeResource: challenge body and its location uri. -/
structure ChallengeResource where
  body : String
  uri : String
deriving DecidableEq

/-- Models messages2.CertificateResource: originating authorization resources,
certificate body (DER bytes as text; M2Crypto parsing is out of scope), the
chain-fetch uri and the location uri (none when never assigned, as in
Network.request_issuance which does not pass one). -/
structure CertificateResource where
  authzrs : List AuthorizationResource
  body : String
  cert_chain_uri : String
  uri : Option String
deriving DecidableEq

/-- Payload carried by errors.UnexpectedUpdate: the source raises it with a
registration resource, an authorization resource, or a plain string (the
location header in answer_challenge, the response text in check_cert). -/
inductive UpdatePayload where
  | regrPayload (r : RegistrationResource)
  | authzrPayload (a : AuthorizationResource)
  | strPayload (s : String)
deriving DecidableEq

/-- Fault kinds raised by the source.  networkError models
errors.NetworkError, the TransportFault of the spec taxonomy (section 7);
protocolError models a raised messages2.Error, the ProtocolError of the
taxonomy; unexpectedUpdate models errors.UnexpectedUpdate.  The remaining
constructors model uncaught Python exceptions: jose.DeserializationError from
a body that fails to deserialize, ValueError from response.json() on a
non-JSON body, KeyError from a missing dictionary key, AssertionError from a
failed assert statement, IndexError from indexing an empty list.  fuelOut is
an artifact of embedding the while loop with fuel and corresponds to no
source behavior. -/
inductive Err where
  | networkError (msg : String)
  | protocolError (detail : String)
  | unexpectedUpdate (p : UpdatePayload)
  | deserializationError
  | valueError
  | keyError (k : String)
  | assertionError
  | indexError
  | fuelOut
deriving DecidableEq

deriving instance DecidableEq for Except

/-- True exactly when a computation ended by raising a messages2.Error, the
ProtocolError of the spec taxonomy. -/
def isProtocolErrorResult {α : Type} : Except Err α → Bool
  | Except.error (Err.protocolError _) => true
  | _ => false

/-- Modelled from the spec: the account key capability; the source only ever
calls key.public() and compares the result, so the key is its public part. -/
structure Key where
  publicKey : String
deriving DecidableEq

/-- Models the Network object state: new-reg uri and account key.  The
signing algorithm only affects the posted payload, which lies at the oracle
boundary. -/
structure Network where
  new_reg_uri : String
  key : Key
deriving DecidableEq

/-- Modelled from the spec: messages2.Error.from_json, deserialization of a
JSON body as a protocol error record (serialization contract, section 6).
Succeeds exactly on bodies that are error records. -/
def errFromJson : Json → Option String
  | Json.errorObj d => some d
  | _ => none

/-- Modelled from the spec: messages2.Registration.from_json (serialization
contract, section 6). -/
def regFromJson : Json → Option Registration
  | Json.reg r => some r
  | _ => none

/-- Modelled from the spec: messages2.Authorization.from_json (serialization
contract, section 6). -/
def authzFromJson : Json → Option AuthzBody
  | Json.authz b => some b
  | _ => none

/-- Modelled from the spec: challenges.Challenge.from_json (serialization
contract, section 6). -/
def challFromJson : Json → Option String
  | Json.chall c => some c
  | _ => none

/-- Models Network._check_response (network2.py lines 50 to 94).  The body is
parsed as JSON (jobj).  On a non-ok status: a JSON body is deserialized as a
messages2.Error and raised (protocolError); deserialization failure or a
non-JSON body raises errors.NetworkError.  On an ok status: when an expected
content type was given, the response content type differs from it and the
expected type is not the generic JSON type, errors.NetworkError is raised;
otherwise the check passes.  Logging statements are no-ops and are omitted. -/
def checkResponse (resp : Response) (content_type : Option String) : Except Err Unit :=
  let jobj := resp.json
  if resp.ok = false then
    match jobj with
    | some j =>
      match errFromJson j with
      | some e => Except.error (Err.protocolError e)
      | none => Except.error (Err.networkError ("could not deserialize error body"))
    | none => Except.error (Err.networkError ("response is not JSON object"))
  else
    match content_type with
    | some ct =>
      if resp.contentType ≠ ct ∧ ct ≠ JSON_CONTENT_TYPE then
        Except.error (Err.networkError ("Unexpected response Content-Type: " ++ resp.contentType))
      else Except.ok ()
    | none => Except.ok ()

/-- Models Network._regr_from_response (network2.py lines 133 to 149), in
source evaluation order: first the terms_of_service value, which indexes
response.links at the key next whenever a terms-of-service link is present
(KeyError when the next link is absent); then the new_authz_uri fallback,
where a missing next link raises errors.NetworkError; then the body
deserialization; the resource uri is the Location header, falling back to
the uri argument when the header is absent. -/
def regrFromResponse (resp : Response) (uri : Option String)
    (new_authz_uri : Option String) : Except Err RegistrationResource :=
  match (if resp.linkTos.isSome then
           match resp.linkNext with
           | some n => Except.ok (some n)
           | none => Except.error (Err.keyError ("next"))
         else Except.ok none : Except Err (Option String)) with
  | Except.error e => Except.error e
  | Except.ok terms_of_service =>
    match (match new_authz_uri with
           | some n => Except.ok n
           | none =>
             match resp.linkNext with
             | some n => Except.ok n
             | none => Except.error (Err.networkError ("\"next\" link missing"))
           : Except Err String) with
    | Except.error e => Except.error e
    | Except.ok nextAuthz =>
      match resp.json with
      | none => Except.error Err.valueError
      | some j =>
        match regFromJson j with
        | none => Except.error Err.deserializationError
        | some b =>
          Except.ok
            { body := b
              uri := match resp.location with
                     | some l => some l
                     | none => uri
              new_authz_uri := nextAuthz
              terms_of_service := terms_of_service }

/-- Models Network.register (network2.py lines 151 to 170): the response to
the POST of the new registration is classified with the default JSON content
type, the created status is asserted, the response is reconciled and the
returned key and contact are compared with the account key and the submitted
contact; a mismatch raises errors.UnexpectedUpdate carrying the resource.
The response to the POST is oracle-supplied. -/
def register (net : Network) (resp : Response) (contact : List String) :
    Except Err RegistrationResource :=
  match checkResponse resp (some JSON_CONTENT_TYPE) with
  | Except.error e => Except.error e
  | Except.ok _ =>
    if resp.statusCode ≠ 201 then Except.error Err.assertionError
    else
      match regrFromResponse resp none none with
      | Except.error e => Except.error e
      | Except.ok regr =>
        if regr.body.key ≠ net.key.publicKey ∨ regr.body.contact ≠ contact then
          Except.error (Err.unexpectedUpdate (UpdatePayload.regrPayload regr))
        else Except.ok regr

/-- Models Network._authzr_from_response (network2.py lines 198 to 213): the
new_cert_uri fallback is resolved first, a missing next link raising
errors.NetworkError; the body is deserialized; the resource uri is the
Location header falling back to the uri argument; finally the declared key
and identifier are compared with the account key and the expected identifier,
a mismatch raising errors.UnexpectedUpdate carrying the resource. -/
def authzrFromResponse (net : Network) (resp : Response) (identifier : String)
    (uri : Option String) (new_cert_uri : Option String) :
    Except Err AuthorizationResource :=
  match (match new_cert_uri with
         | some n => Except.ok n
         | none =>
           match resp.linkNext with
           | some n => Except.ok n
           | none => Except.error (Err.networkError ("\"next\" link missing"))
         : Except Err String) with
  | Except.error e => Except.error e
  | Except.ok nextCert =>
    match resp.json with
    | none => Except.error Err.valueError
    | some j =>
      match authzFromJson j with
      | none => Except.error Err.deserializationError
      | some b =>
        let authzr : AuthorizationResource :=
          { body := b
            uri := match resp.location with
                   | some l => some l
                   | none => uri
            new_cert_uri := nextCert }
        if authzr.body.key ≠ net.key.publicKey ∨ authzr.body.identifier ≠ identifier then
          Except.error (Err.unexpectedUpdate (UpdatePayload.authzrPayload authzr))
        else Except.ok authzr

/-- Models Network.answer_challenge (network2.py lines 230 to 250): the
response to the POST of the challenge response is classified with the default
JSON content type; the Location header is read by direct indexing (KeyError
when absent) and compared with the original challenge resource uri, a
difference raising errors.UnexpectedUpdate carrying the header value;
otherwise the updated resource carries the deserialized body and keeps the
original uri.  The response to the POST is oracle-supplied. -/
def answerChallenge (challr : ChallengeResource) (resp : Response) :
    Except Err ChallengeResource :=
  match checkResponse resp (some JSON_CONTENT_TYPE) with
  | Except.error e => Except.error e
  | Except.ok _ =>
    match resp.location with
    | none => Except.error (Err.keyError ("location"))
    | some loc =>
      if loc ≠ challr.uri then
        Except.error (Err.unexpectedUpdate (UpdatePayload.strPayload loc))
      else
        match resp.json with
        | none => Except.error Err.valueError
        | some j =>
          match challFromJson j with
          | none => Except.error Err.deserializationError
          | some c => Except.ok { body := c, uri := challr.uri }

/-- Models Network.check_cert (network2.py lines 360 to 375), with _get_cert
inlined: the response to the GET of the certificate location is classified
with the DER content type and its text is loaded as the certificate; then
the source tests, verbatim, if not location differs from the stored uri and
raises errors.UnexpectedUpdate carrying the response text in that case,
returning the updated resource otherwise.  The Location header is read by
direct indexing (KeyError when absent).  The response is oracle-supplied. -/
def checkCert (resp : Response) (certr : CertificateResource) :
    Except Err CertificateResource :=
  match checkResponse resp (some DER_CONTENT_TYPE) with
  | Except.error e => Except.error e
  | Except.ok _ =>
    match resp.location with
    | none => Except.error (Err.keyError ("location"))
    | some loc =>
      if ¬ (some loc ≠ certr.uri) then
        Except.error (Err.unexpectedUpdate (UpdatePayload.strPayload resp.text))
      else Except.ok { certr with body := resp.text }

/-- Models Network.refresh (network2.py lines 377 to 387), which just calls
check_cert. -/
def refresh (resp : Response) (certr : CertificateResource) :
    Except Err CertificateResource :=
  checkCert resp certr

/-- Models Network.revoke (network2.py lines 401 to 413): the revocation body
(the when directive and the authorization uris) only affects the POSTed
payload, which lies at the oracle boundary; the response to the POST of the
signed revocation is classified with the default JSON content type, and a
status other than 200 raises errors.NetworkError. -/
def revoke (certr : CertificateResource) (resp : Response) : Except Err Unit :=
  let _revocationUris := certr.authzrs.map (fun a => a.uri)
  match checkResponse resp (some JSON_CONTENT_TYPE) with
  | Except.error e => Except.error e
  | Except.ok _ =>
    if resp.statusCode ≠ 200 then
      Except.error (Err.networkError ("Successful revocation must return HTTP OK status"))
    else Except.ok ()

/-- Models Network._retry_after (network2.py lines 263 to 271): the
Retry-After header, defaulting to the mintime argument; an integer value
yields now plus that many seconds, a date value is returned as an absolute
time. -/
def retryAfterDue (resp : Response) (mintime : Nat) (now : Nat) : Nat :=
  match resp.retryAfter with
  | none => now + mintime
  | some (RetryAfterHeader.seconds s) => now + s
  | some (RetryAfterHeader.httpDate d) => d

/-- Trace events recording the network calls and queue operations performed
by the polling scheduler: pollGet records the due time popped from the queue,
the wall time of the GET, the authorization resource value held in the queue
entry and the uri actually passed to the GET; requeue records a heappush of
an authorization back onto the queue after a poll returned the given status;
certPost records the certificate request POST. -/
inductive Event where
  | pollGet (due : Nat) (time : Nat) (authzr : AuthorizationResource) (uri : Option String)
  | requeue (time : Nat) (due : Nat) (authzr : AuthorizationResource) (status : String)
  | certPost (time : Nat) (uri : String)
deriving DecidableEq

/-- Modelled from the spec: the oracle supplying the server side of each
exchange; get answers the poll GET of a uri at a time, post answers the
certificate request POST. -/
structure Env where
  get : Nat → Option String → Response
  post : Nat → String → Response

/-- Models heapq.heappop on the list of (due time, authorization) pairs: the
entry with the least due time is removed and returned (the first such entry;
the source breaks ties by Python tuple comparison, which the spec leaves
undefined). -/
def popMin : List (Nat × AuthorizationResource) →
    Option ((Nat × AuthorizationResource) × List (Nat × AuthorizationResource))
  | [] => none
  | x :: xs =>
    match popMin xs with
    | none => some (x, [])
    | some (m, rest) => if x.1 ≤ m.1 then some (x, xs) else some (m, x :: rest)

/-- Models heapq.heappush: the heap is represented as an unordered list and
popMin selects the least key, so a push is a cons. -/
def heapPush (l : List (Nat × AuthorizationResource)) (e : Nat × AuthorizationResource) :
    List (Nat × AuthorizationResource) :=
  e :: l

/-- Models insertion into the Python dict mapping each original authorization
resource to its most recently updated snapshot. -/
def dictInsert (m : List (AuthorizationResource × AuthorizationResource))
    (k v : AuthorizationResource) : List (AuthorizationResource × AuthorizationResource) :=
  match m with
  | [] => [(k, v)]
  | (k0, v0) :: rest => if k0 = k then (k, v) :: rest else (k0, v0) :: dictInsert rest k v

/-- Models lookup in the updated-snapshot dict. -/
def dictGet (m : List (AuthorizationResource × AuthorizationResource))
    (k : AuthorizationResource) : Option AuthorizationResource :=
  (m.find? (fun p => decide (p.1 = k))).map (fun p => p.2)

/-- Models the Python 2 equality test in the assert of
poll_and_request_issuance (network2.py line 344), which compares
updated_authzr.uri, a string or None, with authzr, a whole
AuthorizationResource object; equality between values of these distinct
types is always False in Python 2 (neither side defines a cross-type
equality). -/
def pyStrEqAuthzr (_ : Option String) (_ : AuthorizationResource) : Bool := false

/-- Models Network.request_issuance (network2.py lines 291 to 314): the
certificate request body (csr and the authorization uris) only affects the
POSTed payload, which lies at the oracle boundary; indexing authzrs at 0
raises IndexError on an empty list before any POST; the POST to the first
authorization next_cert_uri is classified with the DER content type and an
Accept header for it; the resource carries the original authzrs list, the
response text as certificate body and the url of the up link (KeyError when
absent).  Returns the trace of POST events alongside the result. -/
def requestIssuance (env : Env) (t : Nat) (csr : String)
    (authzrs : List AuthorizationResource) :
    List Event × Except Err CertificateResource :=
  let _req := (csr, authzrs.map (fun a => a.uri))
  match authzrs with
  | [] => ([], Except.error Err.indexError)
  | a0 :: _ =>
    let resp := env.post t a0.new_cert_uri
    let ev := Event.certPost t a0.new_cert_uri
    match checkResponse resp (some DER_CONTENT_TYPE) with
    | Except.error e => ([ev], Except.error e)
    | Except.ok _ =>
      match resp.linkUp with
      | none => ([ev], Except.error (Err.keyError ("up")))
      | some up =>
        ([ev], Except.ok { authzrs := authzrs, body := resp.text,
                           cert_chain_uri := up, uri := none })

/-- Models the while loop of Network.poll_and_request_issuance (network2.py
lines 331 to 352), with fuel for the recursion.  Each iteration pops the
least-due entry; when the due time is in the future the loop sleeps for
(when - now).seconds, the seconds attribute of a Python timedelta, which is
the total delay modulo 86400; it then polls (Network.poll, lines 273 to 289:
a GET of the original authzr.uri classified with the JSON content type and
reconciled by _authzr_from_response with the original identifier, uri and
new_cert_uri), stores the snapshot in the updated dict, and asserts that
updated_authzr.uri equals authzr, a comparison of a string with a resource
object (pyStrEqAuthzr); on assert failure AssertionError is raised.  If the
assert passed and the status is not STATUS_VALID, the entry is pushed back
with the _retry_after due time; otherwise it is dropped.  When the queue is
empty, request_issuance is called and its result paired with the updated
snapshots of the original authzrs. -/
def pollLoop (net : Network) (env : Env) (csr : String)
    (authzrs : List AuthorizationResource) (mintime : Nat) :
    Nat → Nat → List (Nat × AuthorizationResource) →
    List (AuthorizationResource × AuthorizationResource) → List Event →
    List Event × Except Err (CertificateResource × List AuthorizationResource)
  | 0, _, _, _, trace => (trace, Except.error Err.fuelOut)
  | Nat.succ fuel, t, waiting, updated, trace =>
    match popMin waiting with
    | none =>
      (trace ++ (requestIssuance env t csr authzrs).1,
       (requestIssuance env t csr authzrs).2.map
         (fun certr => (certr, authzrs.map (fun a => (dictGet updated a).getD a))))
    | some ((whenDue, authzr), rest) =>
      let t2 := if t < whenDue then t + (whenDue - t) % 86400 else t
      let resp := env.get t2 authzr.uri
      let ev := Event.pollGet whenDue t2 authzr authzr.uri
      match checkResponse resp (some JSON_CONTENT_TYPE) with
      | Except.error e => (trace ++ [ev], Except.error e)
      | Except.ok _ =>
        match authzrFromResponse net resp authzr.body.identifier authzr.uri
            (some authzr.new_cert_uri) with
        | Except.error e => (trace ++ [ev], Except.error e)
        | Except.ok updatedAuthzr =>
          let updated2 := dictInsert updated authzr updatedAuthzr
          if pyStrEqAuthzr updatedAuthzr.uri authzr then
            if updatedAuthzr.body.status ≠ STATUS_VALID then
              let due2 := retryAfterDue resp mintime t2
              pollLoop net env csr authzrs mintime fuel t2
                (heapPush rest (due2, authzr)) updated2
                (trace ++ [ev, Event.requeue t2 due2 authzr updatedAuthzr.body.status])
            else
              pollLoop net env csr authzrs mintime fuel t2 rest updated2 (trace ++ [ev])
          else
            (trace ++ [ev], Except.error Err.assertionError)

/-- Models Network.poll_and_request_issuance (network2.py lines 316 to 352):
every authorization is enqueued due immediately at the start time t0 and the
updated dict maps every authorization to itself; the loop then runs. -/
def pollAndRequestIssuance (net : Network) (env : Env) (csr : String)
    (authzrs : List AuthorizationResource) (mintime : Nat) (t0 : Nat) (fuel : Nat) :
    List Event × Except Err (CertificateResource × List AuthorizationResource) :=
  pollLoop net env csr authzrs mintime fuel t0
    (authzrs.map (fun a => (t0, a)))
    (authzrs.map (fun a => (a, a)))
    []

/-- Concrete pending authorization resource used by the witnesses. -/
def aex : AuthorizationResource :=
  { body := { identifier := "example.com", key := "K", status := "pending" }
    uri := some ("u1")
    new_cert_uri := "nc" }

/-- Concrete Network used by the witnesses. -/
def netEx : Network := { new_reg_uri := "nr", key := { publicKey := "K" } }

/-- Concrete poll response: matching identifier and key, valid status,
Location equal to the polled uri. -/
def respValid : Response :=
  { statusCode := 200
    contentType := "application/json"
    json := some (Json.authz { identifier := "example.com", key := "K", status := "valid" })
    location := some ("u1")
    linkNext := none
    linkUp := none
    linkTos := none
    retryAfter := none
    text := "" }

/-- Concrete certificate response for the certificate request POST. -/
def respCertOk : Response :=
  { statusCode := 200
    contentType := DER_CONTENT_TYPE
    json := none
    location := none
    linkNext := none
    linkUp := some ("up1")
    linkTos := none
    retryAfter := none
    text := "DERBYTES" }

/-- Concrete oracle used by the witnesses: every poll GET answers respValid
and every POST answers respCertOk. -/
def envEx : Env := { get := fun _ _ => respValid, post := fun _ _ => respCertOk }

/-- Soundness of a trace event with respect to the original authorization
list: every poll GET is for an authorization of the original list, targets
exactly that resource location uri, and happens no earlier than the due time
its queue entry was popped with.  Non-poll events carry no obligation. -/
def pollEventOk (authzrs : List AuthorizationResource) : Event → Prop
  | Event.pollGet due time a u => a ∈ authzrs ∧ u = a.uri ∧ due ≤ time
  | _ => True

/-- Terminal status of an authorization: valid, or a final failure status
(glossary of the spec). -/
def isTerminalStatus (s : String) : Prop :=
  s = "valid" ∨ s = "invalid" ∨ s = "revoked"

/-- Holds of an event unless it re-enqueues an authorization whose freshly
polled status is terminal. -/
def requeueStatusNonTerminal : Event → Prop
  | Event.requeue _ _ _ s => ¬ isTerminalStatus s
  | _ => True

/-- Boolean recognizer for poll events. -/
def isPollGetB : Event → Bool
  | Event.pollGet _ _ _ _ => true
  | _ => false

/-- Boolean recognizer for requeue events. -/
def isRequeueB : Event → Bool
  | Event.requeue _ _ _ _ => true
  | _ => false

/-- Boolean recognizer for certificate POST events. -/
def isCertPostB : Event → Bool
  | Event.certPost _ _ => true
  | _ => false

/-- Boolean recognizer for poll events of one given authorization. -/
def isPollOf (a : AuthorizationResource) : Event → Bool
  | Event.pollGet _ _ a2 _ => decide (a2 = a)
  | _ => false

/-- Number of polls of one given authorization in a trace. -/
def countPolls (tr : List Event) (a : AuthorizationResource) : Nat :=
  (tr.filter (isPollOf a)).length

/-- Number of certificate POST events in a trace. -/
def countCertPosts (tr : List Event) : Nat :=
  (tr.filter isCertPostB).length

theorem popMin_mem (l : List (Nat × AuthorizationResource))
    (e : Nat × AuthorizationResource) (rest : List (Nat × AuthorizationResource))
    (h : popMin l = some (e, rest)) : e ∈ l := by
  induction l generalizing e rest with
  | nil => simp [popMin] at h
  | cons x xs ih =>
    rw [popMin] at h
    cases hm : popMin xs with
    | none =>
      rw [hm] at h
      simp at h
      simp [h.1]
    | some p =>
      obtain ⟨m, r⟩ := p
      rw [hm] at h
      dsimp only at h
      by_cases hle : x.1 ≤ m.1
      · rw [if_pos hle] at h
        simp at h
        simp [h.1]
      · rw [if_neg hle] at h
        simp at h
        exact List.mem_cons_of_mem x (h.1 ▸ ih m r hm)

theorem requestIssuance_trace (env : Env) (t : Nat) (csr : String)
    (authzrs : List AuthorizationResource) :
    (requestIssuance env t csr authzrs).1 = [] ∨
    ∃ u, (requestIssuance env t csr authzrs).1 = [Event.certPost t u] := by
  cases authzrs with
  | nil => left; rfl
  | cons a0 rest =>
    right
    refine ⟨a0.new_cert_uri, ?_⟩
    cases h : checkResponse (env.post t a0.new_cert_uri) (some DER_CONTENT_TYPE) with
    | error e => simp [requestIssuance, h]
    | ok u =>
      cases hu : (env.post t a0.new_cert_uri).linkUp with
      | none => simp [requestIssuance, h, hu]
      | some up => simp [requestIssuance, h, hu]

theorem length_filter_mono (p q : Event → Bool)
    (h : ∀ e, p e = true → q e = true) (l : List Event) :
    (l.filter p).length ≤ (l.filter q).length := by
  induction l with
  | nil => simp
  | cons x xs ih =>
    by_cases hp : p x = true
    · rw [List.filter_cons_of_pos hp, List.filter_cons_of_pos (h x hp)]
      simpa using ih
    · rw [List.filter_cons_of_neg (by simpa using hp)]
      cases hq : q x with
      | false => rw [List.filter_cons_of_neg (by simp [hq])]; exact ih
      | true =>
        rw [List.filter_cons_of_pos hq]
        exact Nat.le_succ_of_le ih

theorem pollLoop_events (net : Network) (env : Env) (csr : String)
    (authzrs : List AuthorizationResource) (mintime : Nat)
    (fuel t : Nat) (waiting : List (Nat × AuthorizationResource))
    (updated : List (AuthorizationResource × AuthorizationResource))
    (trace : List Event)
    (hw : ∀ p ∈ waiting, p.2 ∈ authzrs ∧ p.1 ≤ t)
    (htr : ∀ ev ∈ trace, pollEventOk authzrs ev) :
    ∀ ev ∈ (pollLoop net env csr authzrs mintime fuel t waiting updated trace).1,
      pollEventOk authzrs ev := by
  intro ev hev
  cases fuel with
  | zero =>
    rw [pollLoop] at hev
    exact htr ev hev
  | succ fuel =>
    rw [pollLoop] at hev
    cases hpop : popMin waiting with
    | none =>
      rw [hpop] at hev
      simp only [List.mem_append] at hev
      rcases hev with hev | hev
      · exact htr ev hev
      · rcases requestIssuance_trace env t csr authzrs with he | ⟨u, he⟩
        · rw [he] at hev; cases hev
        · rw [he] at hev
          simp at hev
          subst hev
          trivial
    | some p =>
      obtain ⟨⟨whenDue, authzr⟩, rest⟩ := p
      obtain ⟨ha, hle⟩ := hw _ (popMin_mem waiting _ rest hpop)
      rw [hpop] at hev
      simp only [if_neg (by omega : ¬ t < whenDue)] at hev
      cases hc : checkResponse (env.get t authzr.uri) (some JSON_CONTENT_TYPE) with
      | error e =>
        rw [hc] at hev
        simp only [List.mem_append, List.mem_singleton] at hev
        rcases hev with hev | hev
        · exact htr ev hev
        · subst hev; exact ⟨ha, rfl, hle⟩
      | ok u =>
        rw [hc] at hev
        cases hr : authzrFromResponse net (env.get t authzr.uri)
            authzr.body.identifier authzr.uri (some authzr.new_cert_uri) with
        | error e =>
          rw [hr] at hev
          simp only [List.mem_append, List.mem_singleton] at hev
          rcases hev with hev | hev
          · exact htr ev hev
          · subst hev; exact ⟨ha, rfl, hle⟩
        | ok ua =>
          rw [hr] at hev
          simp only [pyStrEqAuthzr, Bool.false_eq_true, if_false,
            List.mem_append, List.mem_singleton] at hev
          rcases hev with hev | hev
          · exact htr ev hev
          · subst hev; exact ⟨ha, rfl, hle⟩

theorem pollLoop_delta (net : Network) (env : Env) (csr : String)
    (authzrs : List AuthorizationResource) (mintime : Nat)
    (fuel t : Nat) (waiting : List (Nat × AuthorizationResource))
    (updated : List (AuthorizationResource × AuthorizationResource))
    (trace : List Event) :
    ∃ d, (pollLoop net env csr authzrs mintime fuel t waiting updated trace).1
           = trace ++ d ∧
         d.filter isRequeueB = [] ∧ (d.filter isPollGetB).length ≤ 1 := by
  cases fuel with
  | zero => exact ⟨[], by simp [pollLoop], by simp, by simp⟩
  | succ fuel =>
    rw [pollLoop]
    cases hpop : popMin waiting with
    | none =>
      refine ⟨(requestIssuance env t csr authzrs).1, rfl, ?_, ?_⟩
      · rcases requestIssuance_trace env t csr authzrs with he | ⟨u, he⟩ <;>
          simp [he, isRequeueB]
      · rcases requestIssuance_trace env t csr authzrs with he | ⟨u, he⟩ <;>
          simp [he, isPollGetB]
    | some p =>
      obtain ⟨⟨whenDue, authzr⟩, rest⟩ := p
      dsimp only
      cases hc : checkResponse
          (env.get (if t < whenDue then t + (whenDue - t) % 86400 else t) authzr.uri)
          (some JSON_CONTENT_TYPE) with
      | error e =>
        exact ⟨_, rfl, by simp [isRequeueB], by simp [isPollGetB]⟩
      | ok u =>
        cases hr : authzrFromResponse net
            (env.get (if t < whenDue then t + (whenDue - t) % 86400 else t) authzr.uri)
            authzr.body.identifier authzr.uri (some authzr.new_cert_uri) with
        | error e =>
          exact ⟨_, rfl, by simp [isRequeueB], by simp [isPollGetB]⟩
        | ok ua =>
          simp only [pyStrEqAuthzr, Bool.false_eq_true, if_false]
          exact ⟨_, rfl, by simp [isRequeueB], by simp [isPollGetB]⟩

/-- C1: for every run of poll_and_request_issuance, every poll GET issued
for a given authorization is for an authorization of the original list,
targets exactly the uri the authorization was enqueued with (the original
resource location uri), and happens no earlier than the due time its queue
entry carried. -/
theorem poll_targets_enqueued_uri_after_due (net : Network) (env : Env)
    (csr : String) (authzrs : List AuthorizationResource)
    (mintime t0 fuel : Nat) (due time : Nat) (a : AuthorizationResource)
    (u : Option String)
    (hev : Event.pollGet due time a u ∈
      (pollAndRequestIssuance net env csr authzrs mintime t0 fuel).1) :
    a ∈ authzrs ∧ u = a.uri ∧ due ≤ time := by
  rw [pollAndRequestIssuance] at hev
  have hinv : ∀ p ∈ authzrs.map (fun a2 => (t0, a2)), p.2 ∈ authzrs ∧ p.1 ≤ t0 := by
    intro p hp
    simp only [List.mem_map] at hp
    obtain ⟨a2, ha2, rfl⟩ := hp
    exact ⟨ha2, Nat.le_refl t0⟩
  have h := pollLoop_events net env csr authzrs mintime fuel t0
    (authzrs.map (fun a2 => (t0, a2))) (authzrs.map (fun a2 => (a2, a2))) []
    hinv (by intro ev h2; cases h2) (Event.pollGet due time a u) hev
  exact h

/-- C9: in every run of poll_and_request_issuance, no trace event re-enqueues
an authorization whose freshly polled status is terminal, and no
authorization is ever polled more than once (hence in particular an
authorization that has reached a terminal status is never polled again). -/
theorem requeue_only_nonterminal (net : Network) (env : Env) (csr : String)
    (authzrs : List AuthorizationResource) (mintime t0 fuel : Nat) :
    (∀ ev ∈ (pollAndRequestIssuance net env csr authzrs mintime t0 fuel).1,
       requeueStatusNonTerminal ev) ∧
    (∀ a : AuthorizationResource,
       countPolls (pollAndRequestIssuance net env csr authzrs mintime t0 fuel).1 a ≤ 1) := by
  obtain ⟨d, hd, hrq, hpg⟩ := pollLoop_delta net env csr authzrs mintime fuel t0
    (authzrs.map (fun a2 => (t0, a2))) (authzrs.map (fun a2 => (a2, a2))) []
  rw [pollAndRequestIssuance, hd]
  simp only [List.nil_append]
  constructor
  · intro ev hev
    cases ev with
    | requeue time due a s =>
      exfalso
      have : Event.requeue time due a s ∈ d.filter isRequeueB :=
        List.mem_filter.2 ⟨hev, rfl⟩
      rw [hrq] at this
      cases this
    | pollGet due time a u2 => trivial
    | certPost time u2 => trivial
  · intro a
    exact Nat.le_trans
      (length_filter_mono (isPollOf a) isPollGetB
        (by intro e he; cases e <;> simp_all [isPollOf, isPollGetB]) d) hpg

/-- C3 (evidence of a code bug): with a single pending authorization whose
poll returns a matching, valid authorization at the original location, the
run raises AssertionError right after the first poll (the assert at line 344
compares the updated location string with the whole original resource, which
Python 2 never deems equal), the certificate endpoint is never called, and
request_issuance itself, had it been reached, would return a resource whose
authzrs field is the original list. -/
theorem poll_and_request_issuance_assert_failure :
    pollAndRequestIssuance netEx envEx ("csr") [aex] 5 0 2 =
      ([Event.pollGet 0 0 aex (some ("u1"))], Except.error Err.assertionError) ∧
    countCertPosts (pollAndRequestIssuance netEx envEx ("csr") [aex] 5 0 2).1 = 0 ∧
    (requestIssuance envEx 0 ("csr") [aex]).2 =
      Except.ok { authzrs := [aex], body := "DERBYTES", cert_chain_uri := "up1",
                  uri := none } := by
  refine ⟨?_, ?_, ?_⟩ <;> rfl

/-- C1 witness: in the concrete run, the first poll event is in the trace,
its authorization is in the original list, its target is the original uri
and it is not early. -/
theorem poll_targets_enqueued_uri_after_due_witness :
    (Event.pollGet 0 0 aex (some ("u1")) ∈
      (pollAndRequestIssuance netEx envEx ("csr") [aex] 5 0 2).1) ∧
    (aex ∈ [aex] ∧ some ("u1") = aex.uri ∧ 0 ≤ 0) :=
  ⟨by decide,
   poll_targets_enqueued_uri_after_due netEx envEx ("csr") [aex] 5 0 2 0 0 aex
     (some ("u1")) (by decide)⟩

/-- C9 witness: the concrete trace contains the poll event, which is no
terminal requeue, and the authorization is polled at most once. -/
theorem requeue_only_nonterminal_witness :
    (Event.pollGet 0 0 aex (some ("u1")) ∈
       (pollAndRequestIssuance netEx envEx ("csr") [aex] 5 0 2).1 ∧
     requeueStatusNonTerminal (Event.pollGet 0 0 aex (some ("u1")))) ∧
    countPolls (pollAndRequestIssuance netEx envEx ("csr") [aex] 5 0 2).1 aex ≤ 1 :=
  ⟨⟨by decide,
    (requeue_only_nonterminal netEx envEx ("csr") [aex] 5 0 2).1
      (Event.pollGet 0 0 aex (some ("u1"))) (by decide)⟩,
   (requeue_only_nonterminal netEx envEx ("csr") [aex] 5 0 2).2 aex⟩

/-- C2: a registration that returns a resource always returns one whose body
key equals the account public key and whose contact equals the submitted
contact; and when the reconciled response carries a differing key or contact,
register raises errors.UnexpectedUpdate carrying the resource instead of
returning. -/
theorem register_key_contact_check :
    (∀ (net : Network) (resp : Response) (contact : List String)
       (regr : RegistrationResource),
       register net resp contact = Except.ok regr →
       regr.body.key = net.key.publicKey ∧ regr.body.contact = contact) ∧
    (∀ (net : Network) (resp : Response) (contact : List String)
       (regr : RegistrationResource),
       checkResponse resp (some JSON_CONTENT_TYPE) = Except.ok () →
       resp.statusCode = 201 →
       regrFromResponse resp none none = Except.ok regr →
       (regr.body.key ≠ net.key.publicKey ∨ regr.body.contact ≠ contact) →
       register net resp contact =
         Except.error (Err.unexpectedUpdate (UpdatePayload.regrPayload regr))) := by
  constructor
  · intro net resp contact regr h
    unfold register at h
    split at h
    · simp at h
    · split at h
      · simp at h
      · split at h
        · simp at h
        · split at h
          · simp at h
          · rename_i hcond
            push_neg at hcond
            obtain ⟨rfl⟩ := h
            exact hcond
  · intro net resp contact regr hc h201 hr hmis
    simp only [register, hc, h201]
    simp only [hr]
    rw [if_neg (by omega), if_pos hmis]

/-- Concrete registration response: created status, matching key and
contact, Location and next link present. -/
def respRegOk : Response :=
  { statusCode := 201
    contentType := "application/json"
    json := some (Json.reg { key := "K", contact := ["c1"] })
    location := some ("ru")
    linkNext := some ("na")
    linkUp := none
    linkTos := none
    retryAfter := none
    text := "" }

/-- Concrete registration response whose body carries a different key. -/
def respRegBad : Response :=
  { respRegOk with json := some (Json.reg { key := "K2", contact := ["c1"] }) }

/-- Concrete reconciled registration resource for respRegOk. -/
def regrEx : RegistrationResource :=
  { body := { key := "K", contact := ["c1"] }
    uri := some ("ru")
    new_authz_uri := "na"
    terms_of_service := none }

/-- Concrete reconciled registration resource for respRegBad. -/
def regrBad : RegistrationResource :=
  { regrEx with body := { key := "K2", contact := ["c1"] } }

/-- C2 witness: a matching response registers and returns the matching
resource; a response with a differing key raises errors.UnexpectedUpdate. -/
theorem register_key_contact_check_witness :
    (register netEx respRegOk ["c1"] = Except.ok regrEx ∧
     regrEx.body.key = netEx.key.publicKey ∧ regrEx.body.contact = ["c1"]) ∧
    register netEx respRegBad ["c1"] =
      Except.error (Err.unexpectedUpdate (UpdatePayload.regrPayload regrBad)) :=
  ⟨⟨by decide,
    register_key_contact_check.1 netEx respRegOk ["c1"] regrEx (by decide)⟩,
   register_key_contact_check.2 netEx respRegBad ["c1"] regrBad (by decide)
     (by decide) (by decide) (by decide)⟩

/-- Concrete certificate resource with a stored location uri. -/
def certEx : CertificateResource :=
  { authzrs := [aex], body := "OLD", cert_chain_uri := "cu2", uri := some ("cu") }

/-- Concrete certificate refresh response whose declared Location equals the
stored uri (the consistent case). -/
def respCertSameLoc : Response :=
  { statusCode := 200
    contentType := DER_CONTENT_TYPE
    json := none
    location := some ("cu")
    linkNext := none
    linkUp := none
    linkTos := none
    retryAfter := none
    text := "NEW" }

/-- Concrete certificate refresh response whose declared Location differs
from the stored uri. -/
def respCertOtherLoc : Response :=
  { respCertSameLoc with location := some ("elsewhere") }

/-- C4 (evidence of a code bug): check_cert raises errors.UnexpectedUpdate
exactly when the declared Location equals the stored uri and returns the
updated resource when it differs; the double negation in the source test
(if not location differs) inverts the intended consistency check.  refresh
behaves identically. -/
theorem check_cert_location_check_inverted :
    checkCert respCertSameLoc certEx =
      Except.error (Err.unexpectedUpdate (UpdatePayload.strPayload ("NEW"))) ∧
    checkCert respCertOtherLoc certEx = Except.ok { certEx with body := "NEW" } ∧
    refresh respCertSameLoc certEx =
      Except.error (Err.unexpectedUpdate (UpdatePayload.strPayload ("NEW"))) := by
  refine ⟨?_, ?_, ?_⟩ <;> rfl

/-- C5 (amended): on a success status with an explicit expected content type,
the checker raises errors.NetworkError exactly when the returned content
type differs from the expected one and the expected type is not the generic
JSON type; whether the body parsed as JSON plays no role in this branch. -/
theorem check_response_ct_policy (resp : Response) (c : String)
    (h : resp.ok = true) :
    checkResponse resp (some c) =
      if resp.contentType ≠ c ∧ c ≠ JSON_CONTENT_TYPE then
        Except.error
          (Err.networkError ("Unexpected response Content-Type: " ++ resp.contentType))
      else Except.ok () := by
  simp [checkResponse, h]

/-- Concrete success response with generic JSON content type whose body
parses as JSON. -/
def resp5w : Response :=
  { statusCode := 200
    contentType := "application/json"
    json := some Json.other
    location := none
    linkNext := none
    linkUp := none
    linkTos := none
    retryAfter := none
    text := "" }

/-- Concrete success response with an unexpected content type and a body
that does not parse as JSON. -/
def respPlain : Response :=
  { resp5w with contentType := "text/html", json := none }

/-- C5 counterexample to the claim as stated: a body that parses as JSON is
not tolerated when the expected type is the DER type (the fault is raised),
and conversely a content-type mismatch with a non-JSON body raises nothing
when the expected type is the generic JSON type. -/
theorem check_response_ct_counterexample :
    resp5w.json.isSome = true ∧
    resp5w.contentType ≠ DER_CONTENT_TYPE ∧
    checkResponse resp5w (some DER_CONTENT_TYPE) =
      Except.error
        (Err.networkError ("Unexpected response Content-Type: application/json")) ∧
    respPlain.json = none ∧
    respPlain.contentType ≠ JSON_CONTENT_TYPE ∧
    checkResponse respPlain (some JSON_CONTENT_TYPE) = Except.ok () := by
  decide

/-- C5 witness: the policy theorem applied to the concrete mismatching
response. -/
theorem check_response_ct_policy_witness :
    resp5w.ok = true ∧
    checkResponse resp5w (some DER_CONTENT_TYPE) =
      Except.error
        (Err.networkError ("Unexpected response Content-Type: application/json")) := by
  refine ⟨by decide, ?_⟩
  rw [check_response_ct_policy resp5w DER_CONTENT_TYPE (by decide)]
  decide

/-- Concrete created response carrying neither a next link nor a
terms-of-service link. -/
def respNoNext : Response :=
  { statusCode := 201
    contentType := "application/json"
    json := some (Json.reg { key := "K", contact := [] })
    location := some ("loc")
    linkNext := none
    linkUp := none
    linkTos := none
    retryAfter := none
    text := "" }

/-- C6 counterexample to the claim as stated: a response without a next link
and without a fallback uri makes both reconcilers raise errors.NetworkError,
the TransportFault of the spec taxonomy, not a ProtocolError. -/
theorem missing_next_link_counterexample :
    regrFromResponse respNoNext none none =
      Except.error (Err.networkError ("\"next\" link missing")) ∧
    isProtocolErrorResult (regrFromResponse respNoNext none none) = false ∧
    authzrFromResponse netEx respNoNext ("example.com") none none =
      Except.error (Err.networkError ("\"next\" link missing")) ∧
    isProtocolErrorResult
      (authzrFromResponse netEx respNoNext ("example.com") none none) = false := by
  decide

/-- C6 (amended): when no fallback uri is supplied and the response has no
next link relation (and, for the registration reconciler, no terms-of-service
link that would fail earlier), the reconciler raises errors.NetworkError,
the TransportFault of the spec taxonomy, stating that the next link is
missing. -/
theorem missing_next_link_network_fault :
    (∀ (resp : Response) (uri : Option String),
       resp.linkTos = none → resp.linkNext = none →
       regrFromResponse resp uri none =
         Except.error (Err.networkError ("\"next\" link missing"))) ∧
    (∀ (net : Network) (resp : Response) (identifier : String)
       (uri : Option String),
       resp.linkNext = none →
       authzrFromResponse net resp identifier uri none =
         Except.error (Err.networkError ("\"next\" link missing"))) := by
  constructor
  · intro resp uri h1 h2
    simp [regrFromResponse, h1, h2]
  · intro net resp ident uri h
    simp [authzrFromResponse, h]

/-- C6 witness: the amended theorem applied to the concrete linkless
response. -/
theorem missing_next_link_network_fault_witness :
    respNoNext.linkTos = none ∧ respNoNext.linkNext = none ∧
    regrFromResponse respNoNext none none =
      Except.error (Err.networkError ("\"next\" link missing")) ∧
    authzrFromResponse netEx respNoNext ("example.com") none none =
      Except.error (Err.networkError ("\"next\" link missing")) :=
  ⟨rfl, rfl, missing_next_link_network_fault.1 respNoNext none rfl rfl,
   missing_next_link_network_fault.2 netEx respNoNext ("example.com") none rfl⟩

/-- C7: when the declared Location of the challenge answer differs from the
original challenge resource uri, answer_challenge raises
errors.UnexpectedUpdate carrying that location and produces no updated
resource; when it matches and the body deserializes, the updated resource
carries the reconciled body and the original location. -/
theorem answer_challenge_location_check :
    (∀ (challr : ChallengeResource) (resp : Response) (loc : String),
       checkResponse resp (some JSON_CONTENT_TYPE) = Except.ok () →
       resp.location = some loc →
       loc ≠ challr.uri →
       answerChallenge challr resp =
         Except.error (Err.unexpectedUpdate (UpdatePayload.strPayload loc))) ∧
    (∀ (challr : ChallengeResource) (resp : Response) (c : String),
       checkResponse resp (some JSON_CONTENT_TYPE) = Except.ok () →
       resp.location = some challr.uri →
       resp.json = some (Json.chall c) →
       answerChallenge challr resp = Except.ok { body := c, uri := challr.uri }) := by
  constructor
  · intro challr resp loc h hl hne
    simp [answerChallenge, h, hl, hne]
  · intro challr resp c h hl hj
    simp [answerChallenge, h, hl, hj, challFromJson]

/-- Concrete challenge resource. -/
def challEx : ChallengeResource := { body := "old", uri := "chu" }

/-- Concrete challenge answer response with matching Location. -/
def respChallSame : Response :=
  { statusCode := 200
    contentType := "application/json"
    json := some (Json.chall ("newc"))
    location := some ("chu")
    linkNext := none
    linkUp := none
    linkTos := none
    retryAfter := none
    text := "" }

/-- Concrete challenge answer response with a differing Location. -/
def respChallOther : Response :=
  { respChallSame with location := some ("other") }

/-- C7 witness: the theorem applied to the differing and the matching
concrete responses. -/
theorem answer_challenge_location_check_witness :
    answerChallenge challEx respChallOther =
      Except.error (Err.unexpectedUpdate (UpdatePayload.strPayload ("other"))) ∧
    answerChallenge challEx respChallSame =
      Except.ok { body := "newc", uri := "chu" } :=
  ⟨answer_challenge_location_check.1 challEx respChallOther ("other") (by decide)
     rfl (by decide),
   answer_challenge_location_check.2 challEx respChallSame ("newc") (by decide)
     rfl rfl⟩

/-- Concrete revocation response with a 2xx status other than 200 that
passes classification. -/
def resp201 : Response :=
  { statusCode := 201
    contentType := "application/json"
    json := none
    location := none
    linkNext := none
    linkUp := none
    linkTos := none
    retryAfter := none
    text := "" }

/-- C8 counterexample to the claim as stated: a 201 response passes
classification and makes revoke raise errors.NetworkError, the
TransportFault of the spec taxonomy, not a ProtocolError. -/
theorem revoke_non_ok_counterexample :
    checkResponse resp201 (some JSON_CONTENT_TYPE) = Except.ok () ∧
    resp201.statusCode = 201 ∧
    revoke certEx resp201 =
      Except.error
        (Err.networkError ("Successful revocation must return HTTP OK status")) ∧
    isProtocolErrorResult (revoke certEx resp201) = false := by
  decide

/-- C8 (amended): for a revocation POST that passes classification, status
200 is the only accepted status: 200 yields no fault, and any other status,
2xx included, raises errors.NetworkError, the TransportFault of the spec
taxonomy, not a ProtocolError. -/
theorem revoke_requires_ok_fault_kind (certr : CertificateResource)
    (resp : Response)
    (h : checkResponse resp (some JSON_CONTENT_TYPE) = Except.ok ()) :
    revoke certr resp =
      if resp.statusCode ≠ 200 then
        Except.error
          (Err.networkError ("Successful revocation must return HTTP OK status"))
      else Except.ok () := by
  simp only [revoke, h]

/-- C8 witness: the amended theorem applied to the concrete 201 response. -/
theorem revoke_requires_ok_fault_kind_witness :
    checkResponse resp201 (some JSON_CONTENT_TYPE) = Except.ok () ∧
    revoke certEx resp201 =
      Except.error
        (Err.networkError ("Successful revocation must return HTTP OK status")) := by
  refine ⟨by decide, ?_⟩
  rw [revoke_requires_ok_fault_kind certEx resp201 (by decide)]
  decide

theorem regrFromResponse_ok_terms (resp : Response) (uri nau : Option String)
    (regr : RegistrationResource)
    (h : regrFromResponse resp uri nau = Except.ok regr) :
    regr.terms_of_service = if resp.linkTos.isSome then resp.linkNext else none := by
  obtain ⟨sc, ct, js, loc, ln, lu, lt, ra, tx⟩ := resp
  rcases lt with _ | t <;> rcases ln with _ | n <;> rcases nau with _ | n2 <;>
    rcases js with _ | j
  all_goals try cases j
  all_goals try simp [regrFromResponse, regFromJson] at h
  all_goals (subst h; rfl)

/-- C10: the registration reconciler fills the terms-of-service field from
the url of the next link whenever a terms-of-service link is present (even
though a terms-of-service url is available), raises an uncaught KeyError
when the next link is then absent, and leaves the field empty when no
terms-of-service link is present. -/
theorem regr_terms_of_service_from_next :
    (∀ (resp : Response) (uri nau : Option String) (tosUrl nextUrl : String)
       (regr : RegistrationResource),
       resp.linkTos = some tosUrl → resp.linkNext = some nextUrl →
       regrFromResponse resp uri nau = Except.ok regr →
       regr.terms_of_service = some nextUrl) ∧
    (∀ (resp : Response) (uri nau : Option String) (tosUrl : String),
       resp.linkTos = some tosUrl → resp.linkNext = none →
       regrFromResponse resp uri nau = Except.error (Err.keyError ("next"))) ∧
    (∀ (resp : Response) (uri nau : Option String) (regr : RegistrationResource),
       resp.linkTos = none →
       regrFromResponse resp uri nau = Except.ok regr →
       regr.terms_of_service = none) := by
  refine ⟨?_, ?_, ?_⟩
  · intro resp uri nau tosUrl nextUrl regr h1 h2 h3
    rw [regrFromResponse_ok_terms resp uri nau regr h3, h1, h2]
    rfl
  · intro resp uri nau tosUrl h1 h2
    simp [regrFromResponse, h1, h2]
  · intro resp uri nau regr h1 h3
    rw [regrFromResponse_ok_terms resp uri nau regr h3, h1]
    rfl

/-- Concrete created response with both a terms-of-service link and a next
link, with distinct urls. -/
def respTosBoth : Response :=
  { statusCode := 201
    contentType := "application/json"
    json := some (Json.reg { key := "K", contact := [] })
    location := some ("ru")
    linkNext := some ("nexturl")
    linkUp := none
    linkTos := some ("tosurl")
    retryAfter := none
    text := "" }

/-- Concrete created response with a terms-of-service link but no next
link. -/
def respTosNoNext : Response :=
  { respTosBoth with linkNext := none }

/-- Concrete reconciled registration resource for respTosBoth: its
terms-of-service field carries the next url, not the terms-of-service
url. -/
def regrTosEx : RegistrationResource :=
  { body := { key := "K", contact := [] }
    uri := some ("ru")
    new_authz_uri := "nexturl"
    terms_of_service := some ("nexturl") }

/-- C10 witness: all three branches at concrete inputs; in the first the
field holds the next url although the terms-of-service url differs. -/
theorem regr_terms_of_service_from_next_witness :
    (regrFromResponse respTosBoth none none = Except.ok regrTosEx ∧
     regrTosEx.terms_of_service = some ("nexturl")) ∧
    regrFromResponse respTosNoNext none none =
      Except.error (Err.keyError ("next")) ∧
    (regrFromResponse respRegOk none none = Except.ok regrEx ∧
     regrEx.terms_of_service = none) :=
  ⟨⟨by decide,
    regr_terms_of_service_from_next.1 respTosBoth none none ("tosurl") ("nexturl")
      regrTosEx rfl rfl (by decide)⟩,
   regr_terms_of_service_from_next.2.1 respTosNoNext none none ("tosurl") rfl rfl,
   ⟨by decide,
    regr_terms_of_service_from_next.2.2 respRegOk none none regrEx rfl (by decide)⟩⟩

end ACME
